import Mathlib

/-!
Verification of the ROI / canvas-item logic of the acq4 repository
(src/graphicsItems/ROI.py, src/acq4/util/Canvas/items/ScanCanvasItem.py).

The embedding models the numeric state manipulated by the code.  Python
floats are modelled as exact rationals.  Qt scene-graph rotation matrices
(QTransform.rotate, whose entries are cosines and sines of a degree angle)
are abstracted as an arbitrary family of 2x2 matrices R : degrees -> Mat2,
since exact trigonometry is not representable in Rat; no theorem below
depends on the concrete matrix entries.  Likewise pyqtgraph Point.length
and Point.angle (square roots and arctangents) are abstracted as function
parameters.  pyqtgraph Point arithmetic (+, -, *, /) is componentwise,
which is what the modelled operations implement.  Python round is the
Python-2 half-away-from-zero rounding (the bundled code base is Python 2);
no theorem depends on the tie-breaking rule.  Python int() truncates
toward zero.
-/

namespace ACQ4

/-- Python round (half away from zero), as used on floats by the code. -/
def pyRound (q : ℚ) : ℤ :=
  if 0 ≤ q then ⌊q + 1/2⌋ else -⌊-q + 1/2⌋

/-- Python int() applied to a float: truncation toward zero. -/
def pytrunc (q : ℚ) : ℤ :=
  if 0 ≤ q then ⌊q⌋ else -⌊-q⌋

/-- A 2D point (pyqtgraph Point / QPointF), with rational coordinates. -/
@[ext]
structure Pt where
  x : ℚ
  y : ℚ
  deriving DecidableEq, Repr

instance : Add Pt := ⟨fun a b => ⟨a.x + b.x, a.y + b.y⟩⟩
instance : Sub Pt := ⟨fun a b => ⟨a.x - b.x, a.y - b.y⟩⟩
instance : Neg Pt := ⟨fun a => ⟨-a.x, -a.y⟩⟩
/-- pyqtgraph Point multiplication by another Point is componentwise. -/
instance : Mul Pt := ⟨fun a b => ⟨a.x * b.x, a.y * b.y⟩⟩
/-- pyqtgraph Point division by another Point is componentwise. -/
instance : Div Pt := ⟨fun a b => ⟨a.x / b.x, a.y / b.y⟩⟩

@[simp] theorem Pt.add_x (a b : Pt) : (a + b).x = a.x + b.x := rfl
@[simp] theorem Pt.add_y (a b : Pt) : (a + b).y = a.y + b.y := rfl
@[simp] theorem Pt.sub_x (a b : Pt) : (a - b).x = a.x - b.x := rfl
@[simp] theorem Pt.sub_y (a b : Pt) : (a - b).y = a.y - b.y := rfl
@[simp] theorem Pt.mul_x (a b : Pt) : (a * b).x = a.x * b.x := rfl
@[simp] theorem Pt.mul_y (a b : Pt) : (a * b).y = a.y * b.y := rfl
@[simp] theorem Pt.div_x (a b : Pt) : (a / b).x = a.x / b.x := rfl
@[simp] theorem Pt.div_y (a b : Pt) : (a / b).y = a.y / b.y := rfl

/-- Dot product (pyqtgraph Point.dot). -/
def Pt.dot (a b : Pt) : ℚ := a.x * b.x + a.y * b.y

/-- pyqtgraph Point.proj: projection of v onto b, equal to ((v.b)/(b.b)) b
exactly (the implementation divides by the length twice). -/
def projPt (v b : Pt) : Pt :=
  ⟨v.dot b / b.dot b * b.x, v.dot b / b.dot b * b.y⟩

/-- A QTransform restricted to its linear 2x2 part (QTransform.rotate
produces such transforms).  Qt maps row vectors:
map (x, y) = (m11 x + m21 y, m12 x + m22 y). -/
structure Mat2 where
  m11 : ℚ
  m12 : ℚ
  m21 : ℚ
  m22 : ℚ
  deriving DecidableEq, Repr

def Mat2.app (m : Mat2) (v : Pt) : Pt :=
  ⟨m.m11 * v.x + m.m21 * v.y, m.m12 * v.x + m.m22 * v.y⟩

@[simp] theorem Mat2.app_x (m : Mat2) (v : Pt) :
    (m.app v).x = m.m11 * v.x + m.m21 * v.y := rfl
@[simp] theorem Mat2.app_y (m : Mat2) (v : Pt) :
    (m.app v).y = m.m12 * v.x + m.m22 * v.y := rfl

def Mat2.det (m : Mat2) : ℚ := m.m11 * m.m22 - m.m12 * m.m21

def idMat : Mat2 := ⟨1, 0, 0, 1⟩

/-- QTransform.inverted: the inverse matrix, or the identity when the
transform is singular (Qt returns the identity with a false flag). -/
def Mat2.inv (m : Mat2) : Mat2 :=
  if m.det = 0 then idMat
  else ⟨m.m22 / m.det, -m.m12 / m.det, -m.m21 / m.det, m.m11 / m.det⟩

/-- A QRectF, stored as left, top, right, bottom edges. -/
@[ext]
structure Rect where
  l : ℚ
  t : ℚ
  r : ℚ
  b : ℚ
  deriving DecidableEq, Repr

/-- QRectF.adjusted(px, py, px, py): translate a rectangle by a point. -/
def Rect.translate (rc : Rect) (p : Pt) : Rect :=
  ⟨rc.l + p.x, rc.t + p.y, rc.r + p.x, rc.b + p.y⟩

@[simp] theorem Rect.translate_l (rc : Rect) (p : Pt) : (rc.translate p).l = rc.l + p.x := rfl
@[simp] theorem Rect.translate_t (rc : Rect) (p : Pt) : (rc.translate p).t = rc.t + p.y := rfl
@[simp] theorem Rect.translate_r (rc : Rect) (p : Pt) : (rc.translate p).r = rc.r + p.x := rfl
@[simp] theorem Rect.translate_b (rc : Rect) (p : Pt) : (rc.translate p).b = rc.b + p.y := rfl

/-- QTransform.mapRect for a rotating transform: Qt maps the four corner
points of the rectangle and returns their bounding rectangle. -/
def mapRectPts (f : Pt → Pt) (rc : Rect) : Rect :=
  let p1 := f ⟨rc.l, rc.t⟩
  let p2 := f ⟨rc.r, rc.t⟩
  let p3 := f ⟨rc.l, rc.b⟩
  let p4 := f ⟨rc.r, rc.b⟩
  ⟨min (min p1.x p2.x) (min p3.x p4.x),
   min (min p1.y p2.y) (min p3.y p4.y),
   max (max p1.x p2.x) (max p3.x p4.x),
   max (max p1.y p2.y) (max p3.y p4.y)⟩

/-- QRectF.contains(QRectF): true iff the inner rectangle lies inside the
outer one; Qt returns false when either rectangle has an empty width or
height (both rectangles are taken normalized, which is how the code
produces them). -/
def rectContains (outer inner : Rect) : Prop :=
  (outer.l ≠ outer.r ∧ outer.t ≠ outer.b ∧ inner.l ≠ inner.r ∧ inner.t ≠ inner.b) ∧
  (outer.l ≤ inner.l ∧ inner.r ≤ outer.r ∧ outer.t ≤ inner.t ∧ inner.b ≤ outer.b)

instance (outer inner : Rect) : Decidable (rectContains outer inner) := by
  unfold rectContains
  infer_instance

/-- QRectF.intersected on normalized rectangles: the overlap, or the null
rectangle when the two do not strictly overlap. -/
def rectIntersect (a b : Rect) : Rect :=
  if a.l ≥ b.r ∨ b.l ≥ a.r ∨ a.t ≥ b.b ∨ b.t ≥ a.b then ⟨0, 0, 0, 0⟩
  else ⟨max a.l b.l, max a.t b.t, min a.r b.r, min a.b b.b⟩

/-! ### Rounding lemmas -/

theorem pyRound_abs_le_half (t : ℚ) : |t - (pyRound t : ℚ)| ≤ 1/2 := by
  unfold pyRound
  split_ifs with h
  · have h1 : ((⌊t + 1/2⌋ : ℤ) : ℚ) ≤ t + 1/2 := Int.floor_le _
    have h2 : t + 1/2 < (⌊t + 1/2⌋ : ℤ) + 1 := Int.lt_floor_add_one _
    rw [abs_le]
    constructor <;> push_cast at h1 h2 ⊢ <;> linarith
  · have h1 : ((⌊-t + 1/2⌋ : ℤ) : ℚ) ≤ -t + 1/2 := Int.floor_le _
    have h2 : -t + 1/2 < (⌊-t + 1/2⌋ : ℤ) + 1 := Int.lt_floor_add_one _
    rw [abs_le]
    constructor <;> push_cast at h1 h2 ⊢ <;> linarith

theorem pyRound_nearest_int (t : ℚ) (k : ℤ) :
    |t - (pyRound t : ℚ)| ≤ |t - (k : ℚ)| := by
  by_cases hk : k = pyRound t
  · rw [hk]
  · have hne : (k : ℤ) - pyRound t ≠ 0 := sub_ne_zero.mpr hk
    have h1 : (1 : ℤ) ≤ |k - pyRound t| := Int.one_le_abs hne
    have h1q : (1 : ℚ) ≤ |(k : ℚ) - (pyRound t : ℚ)| := by
      exact_mod_cast h1
    have h2 := pyRound_abs_le_half t
    have htri : |(k : ℚ) - (pyRound t : ℚ)| ≤ |(k : ℚ) - t| + |t - (pyRound t : ℚ)| :=
      abs_sub_le _ _ _
    have : (1/2 : ℚ) ≤ |(k : ℚ) - t| := by linarith
    calc |t - (pyRound t : ℚ)| ≤ 1/2 := h2
      _ ≤ |(k : ℚ) - t| := this
      _ = |t - (k : ℚ)| := abs_sub_comm _ _

/-- Snapping a coordinate to a grid of spacing w lands on the grid point
nearest to the coordinate. -/
theorem snap_nearest (x w : ℚ) (hw : w ≠ 0) (k : ℤ) :
    |(pyRound (x / w) : ℚ) * w - x| ≤ |(k : ℚ) * w - x| := by
  have e1 : (pyRound (x / w) : ℚ) * w - x = ((pyRound (x / w) : ℚ) - x / w) * w := by
    rw [sub_mul, div_mul_cancel₀ x hw]
  have e2 : (k : ℚ) * w - x = ((k : ℚ) - x / w) * w := by
    rw [sub_mul, div_mul_cancel₀ x hw]
  rw [e1, e2, abs_mul, abs_mul]
  apply mul_le_mul_of_nonneg_right _ (abs_nonneg w)
  have := pyRound_nearest_int (x / w) k
  rw [abs_sub_comm (x / w) _, abs_sub_comm (x / w) _] at this
  exact this

/-! ### ROI state (ROI.py) -/

/-- The mutable geometric state of an ROI: self.state with keys pos, size,
angle (angle in degrees). -/
@[ext]
structure ROIState where
  pos : Pt
  size : Pt
  angle : ℚ
  deriving DecidableEq, Repr

/-- The construction-time options of an ROI that the modelled operations
consult. -/
structure ROIConfig where
  invertible : Bool
  aspectLocked : Bool
  rotateAllowed : Bool
  translateSnap : Bool
  scaleSnap : Bool
  rotateSnap : Bool
  snapSize : Option ℚ
  maxBounds : Option Rect

/-- ROI.getState / ROI.stateCopy: a copy of the three state fields. -/
def getState (st : ROIState) : ROIState := ⟨st.pos, st.size, st.angle⟩

/-- ROI.saveState: the state with pos and size converted to tuples. -/
structure SavedState where
  pos : ℚ × ℚ
  size : ℚ × ℚ
  angle : ℚ
  deriving DecidableEq, Repr

def saveState (st : ROIState) : SavedState :=
  ⟨(st.pos.x, st.pos.y), (st.size.x, st.size.y), st.angle⟩

/-- ROI.setPos: replaces the pos entry of the state. -/
def setPos (st : ROIState) (p : Pt) : ROIState := { st with pos := p }

/-- ROI.setSize: replaces the size entry of the state. -/
def setSize (st : ROIState) (s : Pt) : ROIState := { st with size := s }

/-- ROI.setAngle: replaces the angle entry of the state. -/
def setAngle (st : ROIState) (a : ℚ) : ROIState := { st with angle := a }

/-- ROI.setState: setPos, setSize, setAngle from a saved dict. -/
def setState (st : ROIState) (sv : SavedState) : ROIState :=
  setAngle (setSize (setPos st ⟨sv.pos.1, sv.pos.2⟩) ⟨sv.size.1, sv.size.2⟩) sv.angle

/-- ROI.stateRect(state): the rectangle QRectF(0, 0, size.x, size.y) mapped
through QTransform.rotate(-angle) (bounding rectangle of the four mapped
corners) and then translated by pos via adjusted.  R is the abstract
degree-angle rotation-matrix family. -/
def stateRect (R : ℚ → Mat2) (st : ROIState) : Rect :=
  (mapRectPts (R (-st.angle)).app ⟨0, 0, st.size.x, st.size.y⟩).translate st.pos

/-- QGraphicsItem.mapToParent for a parentless ROI whose transform is
rotate(angle) followed by the item position: rotate then translate. -/
def mapToParent (R : ℚ → Mat2) (st : ROIState) (v : Pt) : Pt :=
  (R st.angle).app v + st.pos

/-- QGraphicsItem.mapFromParent: the inverse map (Qt inverts the
transform, yielding the identity when it is singular). -/
def mapFromParent (R : ℚ → Mat2) (st : ROIState) (p : Pt) : Pt :=
  (R st.angle).inv.app (p - st.pos)

/-! ### Snapping (ROI.getSnapPosition) and translation (ROI.translate) -/

/-- The snap argument accepted by ROI.getSnapPosition: the Python values
None, True, or a Point(w, h) grid. -/
inductive SnapSpec where
  | unspecified
  | strue
  | grid (w h : ℚ)

/-- The snap keyword argument of ROI.translate: None (resolve from
self.translateSnap), an explicit bool, or a Point(w, h) grid. -/
inductive TranslateSnap where
  | auto
  | flag (b : Bool)
  | grid (w h : ℚ)

/-- One axis of the grid snap: round(pos / w) * w. -/
def snapAxis (w coord : ℚ) : ℚ := (pyRound (coord / w) : ℚ) * w

/-- The rectangular-grid snap used by getSnapPosition. -/
def snapTo (w h : ℚ) (p : Pt) : Pt := ⟨snapAxis w p.x, snapAxis h p.y⟩

/-- ROI.getSnapPosition: with snap None or True the grid is
(snapSize, snapSize), and with snapSize itself None the position is
returned unchanged; otherwise the position is rounded to the grid. -/
def getSnapPosition (cfg : ROIConfig) (p : Pt) (snap : SnapSpec) : Pt :=
  match snap with
  | .unspecified | .strue =>
    match cfg.snapSize with
    | Option.none => p
    | Option.some ss => snapTo ss ss p
  | .grid w h => snapTo w h p

/-- The position ROI.translate requests before bounds clamping: the moved
position, snapped according to the resolved snap argument. -/
def translateRequested (cfg : ROIConfig) (st : ROIState) (pt : Pt)
    (snap : TranslateSnap) : Pt :=
  let pos0 := st.pos + pt
  let snap1 : TranslateSnap :=
    match snap with
    | .auto => .flag cfg.translateSnap
    | s => s
  match snap1 with
  | .flag false => pos0
  | .flag true => getSnapPosition cfg pos0 SnapSpec.strue
  | .grid w h => getSnapPosition cfg pos0 (SnapSpec.grid w h)
  | .auto => pos0

/-- ROI.translate: move by pt, snap, then if maxBounds is set shift the
position back by the overshoot of the new stateRect past each violated
edge of maxBounds. -/
def translate (R : ℚ → Mat2) (cfg : ROIConfig) (st : ROIState) (pt : Pt)
    (snap : TranslateSnap) : ROIState :=
  let p1 := translateRequested cfg st pt snap
  match cfg.maxBounds with
  | Option.none => { st with pos := p1 }
  | Option.some mb =>
    let rc := stateRect R { st with pos := p1 }
    let dx := if mb.l > rc.l then mb.l - rc.l else if mb.r < rc.r then mb.r - rc.r else 0
    let dy := if mb.t > rc.t then mb.t - rc.t else if mb.b < rc.b then mb.b - rc.b else 0
    { st with pos := ⟨p1.x + dx, p1.y + dy⟩ }

/-! ### Handle moves (ROI.movePoint)

movePoint is modelled for a parentless ROI (parent coordinates = scene
coordinates, so mapSceneToParent is the identity).  The two quantities the
code obtains from pyqtgraph Point that involve irrational functions are
abstracted as parameters: vlen models Point.length() and angleBetween
models Point.angle() (degrees between two vectors).  The Python TypeError
raised when a snap is requested while snapSize is None occurs before any
state write, so those paths leave the state unchanged. -/

/-- Handle types: translate, free, scale, rotate, scale-rotate,
rotate-free. -/
inductive HType where
  | t | f | s | r | sr | rf
  deriving DecidableEq, Repr

/-- The entries of a handle dict that movePoint consults. -/
structure HandleInfo where
  typ : HType
  pos : Pt
  center : Pt
  lockAspect : Bool

/-- The keyboard modifiers movePoint tests. -/
structure Mods where
  ctrl : Bool
  alt : Bool

/-- The tail of the scale branch: move the ROI so the center point c
occupies the same scene location after the resize to ns. -/
def scaleApply (R : ℚ → Mat2) (st : ROIState) (c ns : Pt) : ROIState :=
  let s0 := c * st.size
  let s1 := c * ns
  let cc := mapToParent R st (s0 - s1) - mapToParent R st ⟨0, 0⟩
  { st with size := ns, pos := st.pos + cc }

/-- The tail of the rotate branch: move the ROI so that the center point
(cs in local coordinates) remains stationary after rotating to ang. -/
def rotateApply (R : ℚ → Mat2) (st : ROIState) (cs : Pt) (ang : ℚ) : ROIState :=
  let cc := mapToParent R st cs - ((R ang).app cs + st.pos)
  { st with angle := ang, pos := st.pos + cc }

/-- The corrections and limit checks the scale branch applies to the raw
computed size ns0: zero components keep the old size, negative components
keep the old size when the ROI is not invertible, and aspect locking
copies the y component to x. -/
def scaleFixSize (cfg : ROIConfig) (old ns0 : Pt) : Pt :=
  let ns1 : Pt := ⟨if ns0.x = 0 then old.x else ns0.x, if ns0.y = 0 then old.y else ns0.y⟩
  let ns2 : Pt :=
    if cfg.invertible then ns1
    else ⟨if ns1.x < 0 then old.x else ns1.x, if ns1.y < 0 then old.y else ns1.y⟩
  if cfg.aspectLocked then ⟨ns2.y, ns2.y⟩ else ns2

/-- The new state computed by the scale branch of movePoint (handle type
s) just before its maxBounds check. -/
def scaleCandidate (R : ℚ → Mat2) (cfg : ROIConfig) (st : ROIState)
    (h : HandleInfo) (p1 : Pt) (mods : Mods) : ROIState :=
  let c := h.center
  let cs := c * st.size
  let p0 := mapToParent R st (h.pos * st.size)
  let lp0 := mapFromParent R st p0 - cs
  let lp1 := mapFromParent R st p1 - cs
  let lp1a : Pt := ⟨if c.x = h.pos.x then 0 else lp1.x, if c.y = h.pos.y then 0 else lp1.y⟩
  let lp1b : Pt :=
    if cfg.scaleSnap || mods.ctrl then
      let ss := cfg.snapSize.getD 0
      ⟨snapAxis ss lp1a.x, snapAxis ss lp1a.y⟩
    else lp1a
  let lp1c := if h.lockAspect || mods.alt then projPt lp1b lp0 else lp1b
  let hs0 := h.pos - c
  let hs : Pt := ⟨if hs0.x = 0 then 1 else hs0.x, if hs0.y = 0 then 1 else hs0.y⟩
  let ns0 : Pt := ⟨lp1c.x / hs.x, lp1c.y / hs.y⟩
  scaleApply R st c (scaleFixSize cfg st.size ns0)

/-- The new state computed by the rotate branch of movePoint (handle types
r and rf) just before its maxBounds check. -/
def rotateCandidate (R : ℚ → Mat2) (angleBetween : Pt → Pt → ℚ)
    (cfg : ROIConfig) (st : ROIState) (h : HandleInfo) (p1 : Pt) (mods : Mods) : ROIState :=
  let c := h.center
  let cs := c * st.size
  let p0 := mapToParent R st (h.pos * st.size)
  let lp0 := mapFromParent R st p0 - cs
  let lp1 := mapFromParent R st p1 - cs
  let ang0 := st.angle - angleBetween lp0 lp1
  let ang := if cfg.rotateSnap || mods.ctrl then (pyRound (ang0 / 15) : ℚ) * 15 else ang0
  rotateApply R st cs ang

/-- The new state computed by the scale-rotate branch of movePoint (handle
type sr) just before its maxBounds check. -/
def srCandidate (R : ℚ → Mat2) (vlen : Pt → ℚ) (angleBetween : Pt → Pt → ℚ)
    (cfg : ROIConfig) (st : ROIState) (h : HandleInfo) (p1 : Pt) (mods : Mods) : ROIState :=
  let c := h.center
  let cs := c * st.size
  let p0 := mapToParent R st (h.pos * st.size)
  let lp0 := mapFromParent R st p0 - cs
  let lp1 := mapFromParent R st p1 - cs
  let ang0 := st.angle - angleBetween lp0 lp1
  let ang := if cfg.rotateSnap || mods.ctrl then (pyRound (ang0 / 15) : ℚ) * 15 else ang0
  let axisIsY := c.x = h.pos.x
  let hs := |if axisIsY then h.pos.y - c.y else h.pos.x - c.x|
  let sA0 := vlen lp1 / hs
  let sA1 := if cfg.scaleSnap then snapAxis (cfg.snapSize.getD 0) sA0 else sA0
  let sA := if sA1 = 0 then 1 else sA1
  let newSize : Pt := if axisIsY then ⟨st.size.x, sA⟩ else ⟨sA, st.size.y⟩
  let c1 := c * newSize
  let cc := mapToParent R st cs - ((R ang).app c1 + st.pos)
  { pos := st.pos + cc, size := newSize, angle := ang }

/-- The maxBounds check shared by the s, r, rf and sr branches: the
candidate state is applied only when its stateRect is contained in
maxBounds; otherwise movePoint returns with the state untouched. -/
def boundsGate (R : ℚ → Mat2) (cfg : ROIConfig) (st cand : ROIState) : ROIState :=
  match cfg.maxBounds with
  | Option.none => cand
  | Option.some bnd => if rectContains bnd (stateRect R cand) then cand else st

/-- The candidate state each bounded movePoint branch tests against
maxBounds (st itself for the branches that have no such check). -/
def movePointCandidate (R : ℚ → Mat2) (vlen : Pt → ℚ) (angleBetween : Pt → Pt → ℚ)
    (cfg : ROIConfig) (st : ROIState) (h : HandleInfo) (p1 : Pt) (mods : Mods) : ROIState :=
  match h.typ with
  | .s => scaleCandidate R cfg st h p1 mods
  | .r => rotateCandidate R angleBetween cfg st h p1 mods
  | .rf => rotateCandidate R angleBetween cfg st h p1 mods
  | .sr => srCandidate R vlen angleBetween cfg st h p1 mods
  | _ => st

/-- ROI.movePoint: the effect on the ROI state of a handle being dragged
to parent-coordinate position p1. -/
def movePoint (R : ℚ → Mat2) (vlen : Pt → ℚ) (angleBetween : Pt → Pt → ℚ)
    (cfg : ROIConfig) (st : ROIState) (h : HandleInfo) (p1 : Pt) (mods : Mods) : ROIState :=
  let c := h.center
  let cs := c * st.size
  let p0 := mapToParent R st (h.pos * st.size)
  let lp0 := mapFromParent R st p0 - cs
  let lp1 := mapFromParent R st p1 - cs
  match h.typ with
  | .t =>
    translate R cfg st (p1 - p0)
      (if mods.ctrl then TranslateSnap.flag true else TranslateSnap.auto)
  | .f => st
  | .s =>
    if (cfg.scaleSnap || mods.ctrl) && cfg.snapSize.isNone then st
    else boundsGate R cfg st (scaleCandidate R cfg st h p1 mods)
  | .r =>
    if cfg.rotateAllowed then
      if vlen lp1 = 0 ∨ vlen lp0 = 0 then st
      else boundsGate R cfg st (rotateCandidate R angleBetween cfg st h p1 mods)
    else st
  | .rf =>
    if cfg.rotateAllowed then
      if vlen lp1 = 0 ∨ vlen lp0 = 0 then st
      else boundsGate R cfg st (rotateCandidate R angleBetween cfg st h p1 mods)
    else st
  | .sr =>
    if vlen lp1 = 0 ∨ vlen lp0 = 0 then st
    else if cfg.scaleSnap && cfg.snapSize.isNone then st
    else boundsGate R cfg st (srCandidate R vlen angleBetween cfg st h p1 mods)

/-- The parent-coordinate (scene) location of a handle's center point. -/
def centerScene (R : ℚ → Mat2) (st : ROIState) (h : HandleInfo) : Pt :=
  (R st.angle).app (h.center * st.size) + st.pos

/-! ### Array slicing (ROI.getArraySlice, returnSlice=False)

The combined transform built by the code (ROI scene transform, inverse
image scene transform, and the image-to-data scaling folded in by
tr.scale) is abstracted as one affine point map tr; Qt's mapRect for such
maps is the bounding rectangle of the four mapped corners. -/

/-- ROI.boundingRect: QRectF(0, 0, size.x, size.y).normalized(). -/
def roiBoundingRect (sx sy : ℚ) : Rect :=
  ⟨if sx < 0 then sx else 0, if sy < 0 then sy else 0,
   if sx < 0 then 0 else sx, if sy < 0 then 0 else sy⟩

/-- ROI.getArraySlice with returnSlice=False: the integer index bounds
((ax0Start, ax0Stop), (ax1Start, ax1Stop)) computed from the transformed
ROI bounding rectangle intersected with the data rectangle
(0, 0, shape0, shape1). -/
def getArraySliceBounds (tr : Pt → Pt) (shape0 shape1 : ℕ) (sx sy : ℚ) :
    (ℤ × ℤ) × (ℤ × ℤ) :=
  let dataBounds := mapRectPts tr (roiBoundingRect sx sy)
  let intBounds := rectIntersect dataBounds ⟨0, 0, (shape0 : ℚ), (shape1 : ℚ)⟩
  ((pytrunc (min intBounds.l intBounds.r), pytrunc (1 + max intBounds.l intBounds.r)),
   (pytrunc (min intBounds.b intBounds.t), pytrunc (1 + max intBounds.b intBounds.t)))

/-! ### ScanCanvasItem.__init__ (ScanCanvasItem.py)

The acquisition directory handles are modelled by the metadata the code
reads from them: the optional Scanner info dict (with its position and
spotSize entries) and the list of subdirectories.  The data model's
dirType classification is an abstract parameter.  Both failure paths of
the constructor raise the plain builtin Exception; they are modelled as
the error constructors below, and the scatter-plot item exists only in
the success value, so an error result is precisely the case in which no
scatter-plot item is created. -/

/-- The Scanner entry of a protocol directory's info dict. -/
structure ScannerInfo where
  position : Option Pt
  spotSize : Option ℚ

/-- A directory handle: its Scanner metadata and its subdirectories. -/
inductive DirNode where
  | mk : Option ScannerInfo → List DirNode → DirNode

def DirNode.scanner : DirNode → Option ScannerInfo
  | .mk s _ => s

def DirNode.subDirs : DirNode → List DirNode
  | .mk _ d => d

/-- The dataModel.dirType classification of a directory. -/
inductive DirType where
  | protocolSequence | protocol | other
  deriving DecidableEq, Repr

/-- The opts entries ScanCanvasItem.__init__ reads. -/
structure ScanOpts where
  handle : Option DirNode
  subDirs : Option (List DirNode)

/-- The two plain-Exception failure paths of the constructor, plus the
invalid-dir-type raise between them. -/
inductive ScanError where
  | missingHandle | invalidDirType | noData
  deriving DecidableEq, Repr

/-- self.defaultSize = 1e-4. -/
def defaultSpotSize : ℚ := 1 / 10000

/-- One scatter-plot spot. -/
structure Spot where
  pos : Pt
  size : ℚ

/-- The spot a directory contributes: only directories whose info has a
Scanner entry with a position yield a spot. -/
def spotOf (d : DirNode) : Option Spot :=
  match d.scanner with
  | Option.some si =>
    match si.position with
    | Option.some p => Option.some ⟨p, si.spotSize.getD defaultSpotSize⟩
    | Option.none => Option.none
  | Option.none => Option.none

/-- The successfully constructed item: the scatter-plot item is built
from these spots. -/
structure ScanItem where
  spots : List Spot

/-- ScanCanvasItem.__init__: raises (error) when opts has no handle, when
the dir type is invalid, or when no spots are found; otherwise the
scatter-plot item is created from the spots. -/
def scanCanvasItemInit (dirType : DirNode → DirType) (opts : ScanOpts) :
    Except ScanError ScanItem :=
  match opts.handle with
  | Option.none => .error .missingHandle
  | Option.some dh =>
    let dirsE : Except ScanError (List DirNode) :=
      match opts.subDirs with
      | Option.some ds => .ok ds
      | Option.none =>
        match dirType dh with
        | .protocolSequence => .ok dh.subDirs
        | .protocol => .ok [dh]
        | .other => .error .invalidDirType
    match dirsE with
    | .error e => .error e
    | .ok dirs =>
      let pts := dirs.filterMap spotOf
      if pts.isEmpty then .error .noData else .ok ⟨pts⟩

/-! ### Auxiliary truncation lemmas -/

theorem pytrunc_nonneg {q : ℚ} (h : 0 ≤ q) : 0 ≤ pytrunc q := by
  unfold pytrunc
  rw [if_pos h]
  exact Int.floor_nonneg.mpr h

theorem pytrunc_le_int {q : ℚ} {z : ℤ} (h : q ≤ (z : ℚ)) : pytrunc q ≤ z := by
  unfold pytrunc
  split_ifs with h0
  · have := Int.floor_le_floor h
    rwa [Int.floor_intCast] at this
  · have hz : ((-z : ℤ) : ℚ) ≤ -q := by push_cast; linarith
    have := Int.le_floor.mpr hz
    omega

/-! ### Claim theorems -/

/-- Claim C2: getSnapPosition with an explicit grid (w, h) returns
(round(x/w)w, round(y/h)h), which is the nearest grid point on each axis;
with snap None or True it snaps to the grid (snapSize, snapSize); and
with snapSize also None it returns the position unchanged. -/
theorem getSnapPosition_spec (cfg : ROIConfig) (p : Pt) (w h : ℚ)
    (hw : w ≠ 0) (hh : h ≠ 0) :
    (getSnapPosition cfg p (SnapSpec.grid w h) =
        ⟨(pyRound (p.x / w) : ℚ) * w, (pyRound (p.y / h) : ℚ) * h⟩
      ∧ (∀ k : ℤ, |(getSnapPosition cfg p (SnapSpec.grid w h)).x - p.x| ≤ |(k : ℚ) * w - p.x|)
      ∧ (∀ k : ℤ, |(getSnapPosition cfg p (SnapSpec.grid w h)).y - p.y| ≤ |(k : ℚ) * h - p.y|))
    ∧ getSnapPosition cfg p SnapSpec.unspecified = getSnapPosition cfg p SnapSpec.strue
    ∧ (∀ ss : ℚ, cfg.snapSize = Option.some ss →
        getSnapPosition cfg p SnapSpec.unspecified = snapTo ss ss p)
    ∧ (cfg.snapSize = Option.none → getSnapPosition cfg p SnapSpec.unspecified = p) := by
  refine ⟨⟨rfl, ?_, ?_⟩, rfl, ?_, ?_⟩
  · intro k
    exact snap_nearest p.x w hw k
  · intro k
    exact snap_nearest p.y h hh k
  · intro ss hss
    simp [getSnapPosition, hss]
  · intro hss
    simp [getSnapPosition, hss]

/-- Witness for C2 at the grid (2, 3) and the point (5, 7). -/
theorem getSnapPosition_spec_witness :
    (getSnapPosition ⟨false, false, true, false, false, false, Option.none, Option.none⟩
          ⟨5, 7⟩ (SnapSpec.grid 2 3) =
        ⟨(pyRound ((5 : ℚ) / 2) : ℚ) * 2, (pyRound ((7 : ℚ) / 3) : ℚ) * 3⟩
      ∧ (∀ k : ℤ, |(getSnapPosition ⟨false, false, true, false, false, false, Option.none, Option.none⟩
          ⟨5, 7⟩ (SnapSpec.grid 2 3)).x - (5 : ℚ)| ≤ |(k : ℚ) * 2 - 5|)
      ∧ (∀ k : ℤ, |(getSnapPosition ⟨false, false, true, false, false, false, Option.none, Option.none⟩
          ⟨5, 7⟩ (SnapSpec.grid 2 3)).y - (7 : ℚ)| ≤ |(k : ℚ) * 3 - 7|))
    ∧ getSnapPosition ⟨false, false, true, false, false, false, Option.none, Option.none⟩
        ⟨5, 7⟩ SnapSpec.unspecified =
      getSnapPosition ⟨false, false, true, false, false, false, Option.none, Option.none⟩
        ⟨5, 7⟩ SnapSpec.strue
    ∧ (∀ ss : ℚ, (⟨false, false, true, false, false, false, Option.none, Option.none⟩ : ROIConfig).snapSize = Option.some ss →
        getSnapPosition ⟨false, false, true, false, false, false, Option.none, Option.none⟩
          ⟨5, 7⟩ SnapSpec.unspecified = snapTo ss ss ⟨5, 7⟩)
    ∧ ((⟨false, false, true, false, false, false, Option.none, Option.none⟩ : ROIConfig).snapSize = Option.none →
        getSnapPosition ⟨false, false, true, false, false, false, Option.none, Option.none⟩
          ⟨5, 7⟩ SnapSpec.unspecified = ⟨5, 7⟩) :=
  getSnapPosition_spec ⟨false, false, true, false, false, false, Option.none, Option.none⟩
    ⟨5, 7⟩ 2 3 (by norm_num) (by norm_num)

/-- Claim C8: saveState converts pos and size to tuples and keeps the
angle, and setState on the saved dict restores an equal state: getState
after setState(saveState()) equals getState before. -/
theorem saveState_setState_roundtrip (st : ROIState) :
    saveState st = ⟨(st.pos.x, st.pos.y), (st.size.x, st.size.y), st.angle⟩
    ∧ getState (setState st (saveState st)) = getState st := by
  exact ⟨rfl, rfl⟩

/-- Claim C5: ScanCanvasItem.__init__ raises when opts lacks a handle,
and raises (creating no scatter-plot item: an error result carries no
ScanItem) when none of the selected subdirectories has Scanner position
metadata — for every selection route of the source: an explicit subDirs
option, a ProtocolSequence handle (dirs from dirHandle.subDirs()), or a
single Protocol handle (dirs = [dirHandle]). -/
theorem scanCanvasItemInit_errors (dirType : DirNode → DirType) (opts : ScanOpts) :
    (opts.handle = Option.none →
      scanCanvasItemInit dirType opts = Except.error ScanError.missingHandle)
    ∧ (∀ dh ds, opts.handle = Option.some dh →
        (opts.subDirs = Option.some ds
          ∨ (opts.subDirs = Option.none ∧ dirType dh = DirType.protocolSequence
              ∧ ds = dh.subDirs)
          ∨ (opts.subDirs = Option.none ∧ dirType dh = DirType.protocol ∧ ds = [dh])) →
        (∀ d ∈ ds, spotOf d = Option.none) →
        scanCanvasItemInit dirType opts = Except.error ScanError.noData) := by
  constructor
  · intro hnone
    simp [scanCanvasItemInit, hnone]
  · intro dh ds h1 hsel h3
    have hnil : ds.filterMap spotOf = [] := List.filterMap_eq_nil_iff.mpr h3
    rcases hsel with h2 | ⟨h2, hdt, rfl⟩ | ⟨h2, hdt, rfl⟩
    · simp [scanCanvasItemInit, h1, h2, hnil]
    · simp [scanCanvasItemInit, h1, h2, hdt, hnil]
    · simp [scanCanvasItemInit, h1, h2, hdt, hnil]

/-- Witness for C5: a missing handle, a ProtocolSequence scan whose
subdirectories carry no Scanner position metadata, and a single Protocol
handle without Scanner position metadata. -/
theorem scanCanvasItemInit_errors_witness :
    scanCanvasItemInit (fun _ => DirType.protocol) ⟨Option.none, Option.none⟩ =
      Except.error ScanError.missingHandle
    ∧ scanCanvasItemInit (fun _ => DirType.protocolSequence)
        ⟨Option.some (DirNode.mk Option.none [DirNode.mk Option.none []]), Option.none⟩ =
      Except.error ScanError.noData
    ∧ scanCanvasItemInit (fun _ => DirType.protocol)
        ⟨Option.some (DirNode.mk Option.none []), Option.none⟩ =
      Except.error ScanError.noData := by
  refine ⟨?_, ?_, ?_⟩
  · exact (scanCanvasItemInit_errors (fun _ => DirType.protocol) ⟨Option.none, Option.none⟩).1 rfl
  · refine (scanCanvasItemInit_errors (fun _ => DirType.protocolSequence) _).2
      (DirNode.mk Option.none [DirNode.mk Option.none []]) [DirNode.mk Option.none []] rfl
      (Or.inr (Or.inl ⟨rfl, rfl, rfl⟩)) ?_
    intro d hd
    have hde : d = DirNode.mk Option.none [] := List.mem_singleton.mp hd
    rw [hde]
    rfl
  · refine (scanCanvasItemInit_errors (fun _ => DirType.protocol) _).2
      (DirNode.mk Option.none []) [DirNode.mk Option.none []] rfl
      (Or.inr (Or.inr ⟨rfl, rfl, rfl⟩)) ?_
    intro d hd
    have hde : d = DirNode.mk Option.none [] := List.mem_singleton.mp hd
    rw [hde]
    rfl

/-- Claim C6 counterexample: with a 10 x 10 data array, the identity
ROI-to-data transform and a 20 x 20 ROI, the axis-0 stop index computed by
getArraySlice(returnSlice=False) is 11, which exceeds the axis length 10:
the as-stated claim that every stop index is at most the axis length is
false. -/
theorem getArraySlice_stop_exceeds_extent :
    (getArraySliceBounds (fun v => v) 10 10 20 20).1.2 = 11
    ∧ ¬ (getArraySliceBounds (fun v => v) 10 10 20 20).1.2 ≤ ((10 : ℕ) : ℤ) := by
  have hval : getArraySliceBounds (fun v => v) 10 10 20 20 = ((0, 11), (0, 11)) := by
    unfold getArraySliceBounds rectIntersect mapRectPts roiBoundingRect
    norm_num [pytrunc, min_def, max_def]
  rw [hval]
  norm_num

/-- Claim C6 (amended): the bounds returned by getArraySlice with
returnSlice=False satisfy start at least 0 on both axes and stop at most
the axis length plus one on both axes (the stop bound is exclusive, and
it reaches length + 1 exactly when the intersected bounds touch the far
edge of the data rectangle). -/
theorem getArraySlice_bounds_amended (tr : Pt → Pt) (shape0 shape1 : ℕ) (sx sy : ℚ) :
    0 ≤ (getArraySliceBounds tr shape0 shape1 sx sy).1.1
    ∧ (getArraySliceBounds tr shape0 shape1 sx sy).1.2 ≤ (shape0 : ℤ) + 1
    ∧ 0 ≤ (getArraySliceBounds tr shape0 shape1 sx sy).2.1
    ∧ (getArraySliceBounds tr shape0 shape1 sx sy).2.2 ≤ (shape1 : ℤ) + 1 := by
  have hs0 : (0 : ℚ) ≤ (shape0 : ℚ) := Nat.cast_nonneg shape0
  have hs1 : (0 : ℚ) ≤ (shape1 : ℚ) := Nat.cast_nonneg shape1
  have pz : pytrunc 0 = 0 := by norm_num [pytrunc]
  have po : pytrunc 1 = 1 := by norm_num [pytrunc]
  unfold getArraySliceBounds rectIntersect
  set K := mapRectPts tr (roiBoundingRect sx sy) with hK
  dsimp only
  split_ifs with hnull
  · refine ⟨?_, ?_, ?_, ?_⟩ <;> simp [pz, po]
  · push_neg at hnull
    obtain ⟨h1, h2, h3, h4⟩ := hnull
    refine ⟨?_, ?_, ?_, ?_⟩
    · apply pytrunc_nonneg
      apply le_min
      · exact le_max_right _ _
      · exact le_min (le_of_lt h2) hs0
    · apply pytrunc_le_int
      push_cast
      have hmax : max (max K.l 0) (min K.r (shape0 : ℚ)) ≤ (shape0 : ℚ) :=
        max_le (max_le (le_of_lt h1) hs0) (min_le_right _ _)
      linarith
    · apply pytrunc_nonneg
      apply le_min
      · exact le_min (le_of_lt h4) hs1
      · exact le_max_right _ _
    · apply pytrunc_le_int
      push_cast
      have hmax : max (min K.b (shape1 : ℚ)) (max K.t 0) ≤ (shape1 : ℚ) :=
        max_le (min_le_right _ _) (max_le (le_of_lt h3) hs1)
      linarith

/-! ### movePoint lemmas -/

theorem translate_size_angle (R : ℚ → Mat2) (cfg : ROIConfig) (st : ROIState)
    (pt : Pt) (snap : TranslateSnap) :
    (translate R cfg st pt snap).size = st.size
    ∧ (translate R cfg st pt snap).angle = st.angle := by
  unfold translate
  rcases cfg.maxBounds with _ | mb <;> exact ⟨rfl, rfl⟩

theorem scaleApply_center (R : ℚ → Mat2) (st : ROIState) (h : HandleInfo) (ns : Pt) :
    centerScene R (scaleApply R st h.center ns) h = centerScene R st h := by
  ext <;>
    simp only [centerScene, scaleApply, mapToParent, Pt.add_x, Pt.add_y, Pt.sub_x,
      Pt.sub_y, Pt.mul_x, Pt.mul_y, Mat2.app_x, Mat2.app_y] <;>
    ring

theorem rotateApply_center (R : ℚ → Mat2) (st : ROIState) (h : HandleInfo) (ang : ℚ) :
    centerScene R (rotateApply R st (h.center * st.size) ang) h = centerScene R st h := by
  ext <;>
    simp only [centerScene, rotateApply, mapToParent, Pt.add_x, Pt.add_y, Pt.sub_x,
      Pt.sub_y, Pt.mul_x, Pt.mul_y, Mat2.app_x, Mat2.app_y] <;>
    ring

theorem scaleCandidate_center (R : ℚ → Mat2) (cfg : ROIConfig) (st : ROIState)
    (h : HandleInfo) (p1 : Pt) (mods : Mods) :
    centerScene R (scaleCandidate R cfg st h p1 mods) h = centerScene R st h := by
  simp only [scaleCandidate]
  exact scaleApply_center R st h _

theorem rotateCandidate_center (R : ℚ → Mat2) (angleBetween : Pt → Pt → ℚ)
    (cfg : ROIConfig) (st : ROIState) (h : HandleInfo) (p1 : Pt) (mods : Mods) :
    centerScene R (rotateCandidate R angleBetween cfg st h p1 mods) h = centerScene R st h := by
  simp only [rotateCandidate]
  exact rotateApply_center R st h _

/-- Claim C4: moving a translate handle changes only pos (size and angle
are untouched); moving a scale handle never changes the angle and keeps
the handle's center point at the same parent/scene location; moving a
pure rotate handle never changes the size and keeps the center point
fixed. -/
theorem movePoint_handle_type_effects (R : ℚ → Mat2) (vlen : Pt → ℚ)
    (angleBetween : Pt → Pt → ℚ) (cfg : ROIConfig) (st : ROIState)
    (h : HandleInfo) (p1 : Pt) (mods : Mods) :
    (h.typ = HType.t →
      (movePoint R vlen angleBetween cfg st h p1 mods).size = st.size
      ∧ (movePoint R vlen angleBetween cfg st h p1 mods).angle = st.angle)
    ∧ (h.typ = HType.s →
      (movePoint R vlen angleBetween cfg st h p1 mods).angle = st.angle
      ∧ centerScene R (movePoint R vlen angleBetween cfg st h p1 mods) h = centerScene R st h)
    ∧ (h.typ = HType.r →
      (movePoint R vlen angleBetween cfg st h p1 mods).size = st.size
      ∧ centerScene R (movePoint R vlen angleBetween cfg st h p1 mods) h = centerScene R st h) := by
  refine ⟨?_, ?_, ?_⟩ <;> intro ht
  · simp only [movePoint, ht]
    exact translate_size_angle R cfg st _ _
  · simp only [movePoint, ht]
    split_ifs with h1
    · exact ⟨rfl, rfl⟩
    · simp only [boundsGate]
      rcases cfg.maxBounds with _ | bnd
      · exact ⟨rfl, scaleCandidate_center R cfg st h p1 mods⟩
      · dsimp only
        split_ifs with h2
        · exact ⟨rfl, scaleCandidate_center R cfg st h p1 mods⟩
        · exact ⟨rfl, rfl⟩
  · simp only [movePoint, ht]
    split_ifs with h1 h2
    · exact ⟨rfl, rfl⟩
    · simp only [boundsGate]
      rcases cfg.maxBounds with _ | bnd
      · exact ⟨rfl, rotateCandidate_center R angleBetween cfg st h p1 mods⟩
      · dsimp only
        split_ifs with h3
        · exact ⟨rfl, rotateCandidate_center R angleBetween cfg st h p1 mods⟩
        · exact ⟨rfl, rfl⟩
    · exact ⟨rfl, rfl⟩

theorem rotateCandidate_angle_snapped (R : ℚ → Mat2) (angleBetween : Pt → Pt → ℚ)
    (cfg : ROIConfig) (st : ROIState) (h : HandleInfo) (p1 : Pt) (mods : Mods)
    (hflag : (cfg.rotateSnap || mods.ctrl) = true) :
    ∃ k : ℤ, (rotateCandidate R angleBetween cfg st h p1 mods).angle = 15 * (k : ℚ) := by
  simp only [rotateCandidate, rotateApply, hflag]
  exact ⟨_, mul_comm _ _⟩

theorem srCandidate_angle_snapped (R : ℚ → Mat2) (vlen : Pt → ℚ)
    (angleBetween : Pt → Pt → ℚ) (cfg : ROIConfig) (st : ROIState)
    (h : HandleInfo) (p1 : Pt) (mods : Mods)
    (hflag : (cfg.rotateSnap || mods.ctrl) = true) :
    ∃ k : ℤ, (srCandidate R vlen angleBetween cfg st h p1 mods).angle = 15 * (k : ℚ) := by
  simp only [srCandidate, hflag]
  exact ⟨_, mul_comm _ _⟩

/-- Claim C3: when rotateSnap is enabled or Control is held, a move of an
r, rf, or sr handle either leaves the state untouched (an early return or
a maxBounds rejection) or writes an angle that is a multiple of 15
degrees. -/
theorem movePoint_rotate_snap_multiple (R : ℚ → Mat2) (vlen : Pt → ℚ)
    (angleBetween : Pt → Pt → ℚ) (cfg : ROIConfig) (st : ROIState)
    (h : HandleInfo) (p1 : Pt) (mods : Mods)
    (htyp : h.typ = HType.r ∨ h.typ = HType.rf ∨ h.typ = HType.sr)
    (hsnap : cfg.rotateSnap = true ∨ mods.ctrl = true) :
    movePoint R vlen angleBetween cfg st h p1 mods = st
    ∨ ∃ k : ℤ, (movePoint R vlen angleBetween cfg st h p1 mods).angle = 15 * (k : ℚ) := by
  have hflag : (cfg.rotateSnap || mods.ctrl) = true := by
    rcases hsnap with hh | hh <;> simp [hh]
  rcases htyp with ht | ht | ht
  · simp only [movePoint, ht]
    split_ifs with h1 h2
    · exact Or.inl rfl
    · simp only [boundsGate]
      rcases cfg.maxBounds with _ | bnd
      · exact Or.inr (rotateCandidate_angle_snapped R angleBetween cfg st h p1 mods hflag)
      · dsimp only
        split_ifs with h3
        · exact Or.inr (rotateCandidate_angle_snapped R angleBetween cfg st h p1 mods hflag)
        · exact Or.inl rfl
    · exact Or.inl rfl
  · simp only [movePoint, ht]
    split_ifs with h1 h2
    · exact Or.inl rfl
    · simp only [boundsGate]
      rcases cfg.maxBounds with _ | bnd
      · exact Or.inr (rotateCandidate_angle_snapped R angleBetween cfg st h p1 mods hflag)
      · dsimp only
        split_ifs with h3
        · exact Or.inr (rotateCandidate_angle_snapped R angleBetween cfg st h p1 mods hflag)
        · exact Or.inl rfl
    · exact Or.inl rfl
  · simp only [movePoint, ht]
    split_ifs with h1 h2
    · exact Or.inl rfl
    · exact Or.inl rfl
    · simp only [boundsGate]
      rcases cfg.maxBounds with _ | bnd
      · exact Or.inr (srCandidate_angle_snapped R vlen angleBetween cfg st h p1 mods hflag)
      · dsimp only
        split_ifs with h3
        · exact Or.inr (srCandidate_angle_snapped R vlen angleBetween cfg st h p1 mods hflag)
        · exact Or.inl rfl

/-- Claim C7: with maxBounds set, if the candidate state computed by a
scale, rotate, rotate-free, or scale-rotate handle move has a stateRect
not contained in maxBounds, movePoint returns with pos, size, and angle
exactly as they were. -/
theorem movePoint_bounds_atomic (R : ℚ → Mat2) (vlen : Pt → ℚ)
    (angleBetween : Pt → Pt → ℚ) (cfg : ROIConfig) (st : ROIState)
    (h : HandleInfo) (p1 : Pt) (mods : Mods) (bnd : Rect)
    (hmb : cfg.maxBounds = Option.some bnd)
    (htyp : h.typ = HType.s ∨ h.typ = HType.r ∨ h.typ = HType.rf ∨ h.typ = HType.sr)
    (hrej : ¬ rectContains bnd
      (stateRect R (movePointCandidate R vlen angleBetween cfg st h p1 mods))) :
    movePoint R vlen angleBetween cfg st h p1 mods = st := by
  rcases htyp with ht | ht | ht | ht <;>
    simp only [movePointCandidate, ht] at hrej <;>
    simp only [movePoint, ht]
  · split_ifs with h1
    · rfl
    · simp only [boundsGate, hmb]
      rw [if_neg hrej]
  · split_ifs with h1 h2
    · rfl
    · simp only [boundsGate, hmb]
      rw [if_neg hrej]
    · rfl
  · split_ifs with h1 h2
    · rfl
    · simp only [boundsGate, hmb]
      rw [if_neg hrej]
    · rfl
  · split_ifs with h1 h2
    · rfl
    · rfl
    · simp only [boundsGate, hmb]
      rw [if_neg hrej]

theorem scaleApply_size (R : ℚ → Mat2) (st : ROIState) (c ns : Pt) :
    (scaleApply R st c ns).size = ns := rfl

theorem scaleFixSize_nonneg (cfg : ROIConfig) (old ns0 : Pt)
    (hinv : cfg.invertible = false) (hx : 0 ≤ old.x) (hy : 0 ≤ old.y) :
    0 ≤ (scaleFixSize cfg old ns0).x ∧ 0 ≤ (scaleFixSize cfg old ns0).y := by
  simp only [scaleFixSize, hinv, Bool.false_eq_true, if_false]
  constructor <;> split_ifs <;> (try dsimp only) <;>
    first | contradiction | assumption | linarith

theorem scaleCandidate_size_nonneg (R : ℚ → Mat2) (cfg : ROIConfig) (st : ROIState)
    (h : HandleInfo) (p1 : Pt) (mods : Mods)
    (hinv : cfg.invertible = false)
    (hx : 0 ≤ st.size.x) (hy : 0 ≤ st.size.y) :
    0 ≤ (scaleCandidate R cfg st h p1 mods).size.x
    ∧ 0 ≤ (scaleCandidate R cfg st h p1 mods).size.y := by
  simp only [scaleCandidate, scaleApply_size]
  exact scaleFixSize_nonneg cfg st.size _ hinv hx hy

/-- Claim C9: for an ROI with invertible=False whose size components are
nonnegative, a scale-handle move never stores a negative size component:
a computed negative component is replaced by the previous one. -/
theorem movePoint_scale_nonneg (R : ℚ → Mat2) (vlen : Pt → ℚ)
    (angleBetween : Pt → Pt → ℚ) (cfg : ROIConfig) (st : ROIState)
    (h : HandleInfo) (p1 : Pt) (mods : Mods)
    (hinv : cfg.invertible = false) (hty : h.typ = HType.s)
    (hx : 0 ≤ st.size.x) (hy : 0 ≤ st.size.y) :
    0 ≤ (movePoint R vlen angleBetween cfg st h p1 mods).size.x
    ∧ 0 ≤ (movePoint R vlen angleBetween cfg st h p1 mods).size.y := by
  have hcand := scaleCandidate_size_nonneg R cfg st h p1 mods hinv hx hy
  simp only [movePoint, hty]
  split_ifs with h1
  · exact ⟨hx, hy⟩
  · simp only [boundsGate]
    rcases cfg.maxBounds with _ | bnd
    · exact hcand
    · dsimp only
      split_ifs with h2
      · exact hcand
      · exact ⟨hx, hy⟩

theorem clampEdge_mem (A B a b x : ℚ) (hw : A - a ≤ B - b) :
    A ≤ a + (x + (if A > a + x then A - (a + x) else if B < b + x then B - (b + x) else 0))
    ∧ b + (x + (if A > a + x then A - (a + x) else if B < b + x then B - (b + x) else 0)) ≤ B := by
  split_ifs with h1 h2 <;> constructor <;> linarith

theorem clampEdge_nearest (A B a b x q : ℚ) (hq1 : A ≤ a + q) (hq2 : b + q ≤ B) :
    |x + (if A > a + x then A - (a + x) else if B < b + x then B - (b + x) else 0) - x|
      ≤ |q - x| := by
  split_ifs with h1 h2
  · rw [show x + (A - (a + x)) - x = A - (a + x) by ring]
    rw [abs_of_nonneg (by linarith)]
    calc A - (a + x) ≤ q - x := by linarith
      _ ≤ |q - x| := le_abs_self _
  · rw [show x + (B - (b + x)) - x = B - (b + x) by ring]
    rw [abs_of_nonpos (by linarith)]
    rw [show -(B - (b + x)) = x - (B - b) by ring]
    calc x - (B - b) ≤ x - q := by linarith
      _ = -(q - x) := by ring
      _ ≤ |q - x| := neg_le_abs _
  · simp

/-- Claim C1: for a bounded ROI whose current stateRect lies inside
maxBounds, translate clamps the (snapped) requested position so that the
stateRect after the move is still contained in maxBounds, and the chosen
position is the nearest acceptable one: on each axis it is at least as
close to the requested position as any position whose stateRect would be
contained in maxBounds. -/
theorem translate_bounds_clamp (R : ℚ → Mat2) (cfg : ROIConfig) (st : ROIState)
    (pt : Pt) (snap : TranslateSnap) (bnd : Rect)
    (hmb : cfg.maxBounds = Option.some bnd)
    (hfit : rectContains bnd (stateRect R st)) :
    rectContains bnd (stateRect R (translate R cfg st pt snap))
    ∧ ∀ q : Pt, rectContains bnd (stateRect R { st with pos := q }) →
        |(translate R cfg st pt snap).pos.x - (translateRequested cfg st pt snap).x|
          ≤ |q.x - (translateRequested cfg st pt snap).x|
        ∧ |(translate R cfg st pt snap).pos.y - (translateRequested cfg st pt snap).y|
          ≤ |q.y - (translateRequested cfg st pt snap).y| := by
  have hSR : ∀ q : Pt, stateRect R { st with pos := q } =
      (mapRectPts (R (-st.angle)).app ⟨0, 0, st.size.x, st.size.y⟩).translate q :=
    fun _ => rfl
  have hSR0 : stateRect R st =
      (mapRectPts (R (-st.angle)).app ⟨0, 0, st.size.x, st.size.y⟩).translate st.pos := rfl
  set K := mapRectPts (R (-st.angle)).app ⟨0, 0, st.size.x, st.size.y⟩ with hK
  rw [hSR0] at hfit
  simp only [rectContains, Rect.translate_l, Rect.translate_t, Rect.translate_r,
    Rect.translate_b] at hfit
  obtain ⟨⟨hb1, hb2, hn1, hn2⟩, hc1, hc2, hc3, hc4⟩ := hfit
  have hKlr : K.l ≠ K.r := fun hh => hn1 (by rw [hh])
  have hKtb : K.t ≠ K.b := fun hh => hn2 (by rw [hh])
  have hwx : bnd.l - K.l ≤ bnd.r - K.r := by linarith
  have hwy : bnd.t - K.t ≤ bnd.b - K.b := by linarith
  simp only [translate, hmb, hSR, Rect.translate_l, Rect.translate_t, Rect.translate_r,
    Rect.translate_b]
  constructor
  · simp only [rectContains, Rect.translate_l, Rect.translate_t, Rect.translate_r,
      Rect.translate_b]
    refine ⟨⟨hb1, hb2, ?_, ?_⟩, ?_, ?_, ?_, ?_⟩
    · intro hh
      exact hKlr (by linarith)
    · intro hh
      exact hKtb (by linarith)
    · exact (clampEdge_mem bnd.l bnd.r K.l K.r
        (translateRequested cfg st pt snap).x hwx).1
    · exact (clampEdge_mem bnd.l bnd.r K.l K.r
        (translateRequested cfg st pt snap).x hwx).2
    · exact (clampEdge_mem bnd.t bnd.b K.t K.b
        (translateRequested cfg st pt snap).y hwy).1
    · exact (clampEdge_mem bnd.t bnd.b K.t K.b
        (translateRequested cfg st pt snap).y hwy).2
  · intro q hq
    simp only [rectContains, Rect.translate_l, Rect.translate_t, Rect.translate_r,
      Rect.translate_b] at hq
    obtain ⟨-, hq1, hq2, hq3, hq4⟩ := hq
    constructor
    · exact clampEdge_nearest bnd.l bnd.r K.l K.r
        (translateRequested cfg st pt snap).x q.x hq1 hq2
    · exact clampEdge_nearest bnd.t bnd.b K.t K.b
        (translateRequested cfg st pt snap).y q.y hq3 hq4

/-- Witness for C1: a unit ROI at the origin inside bounds
(-10, -10)..(10, 10), translated by (100, 0). -/
theorem translate_bounds_clamp_witness :
    rectContains ⟨-10, -10, 10, 10⟩
      (stateRect (fun _ => idMat)
        (translate (fun _ => idMat)
          ⟨false, false, true, false, false, false, Option.some 1, Option.some ⟨-10, -10, 10, 10⟩⟩
          ⟨⟨0, 0⟩, ⟨1, 1⟩, 0⟩ ⟨100, 0⟩ TranslateSnap.auto))
    ∧ ∀ q : Pt,
        rectContains ⟨-10, -10, 10, 10⟩
          (stateRect (fun _ => idMat) { (⟨⟨0, 0⟩, ⟨1, 1⟩, 0⟩ : ROIState) with pos := q }) →
        |(translate (fun _ => idMat)
            ⟨false, false, true, false, false, false, Option.some 1, Option.some ⟨-10, -10, 10, 10⟩⟩
            ⟨⟨0, 0⟩, ⟨1, 1⟩, 0⟩ ⟨100, 0⟩ TranslateSnap.auto).pos.x -
          (translateRequested
            ⟨false, false, true, false, false, false, Option.some 1, Option.some ⟨-10, -10, 10, 10⟩⟩
            ⟨⟨0, 0⟩, ⟨1, 1⟩, 0⟩ ⟨100, 0⟩ TranslateSnap.auto).x|
          ≤ |q.x - (translateRequested
            ⟨false, false, true, false, false, false, Option.some 1, Option.some ⟨-10, -10, 10, 10⟩⟩
            ⟨⟨0, 0⟩, ⟨1, 1⟩, 0⟩ ⟨100, 0⟩ TranslateSnap.auto).x|
        ∧ |(translate (fun _ => idMat)
            ⟨false, false, true, false, false, false, Option.some 1, Option.some ⟨-10, -10, 10, 10⟩⟩
            ⟨⟨0, 0⟩, ⟨1, 1⟩, 0⟩ ⟨100, 0⟩ TranslateSnap.auto).pos.y -
          (translateRequested
            ⟨false, false, true, false, false, false, Option.some 1, Option.some ⟨-10, -10, 10, 10⟩⟩
            ⟨⟨0, 0⟩, ⟨1, 1⟩, 0⟩ ⟨100, 0⟩ TranslateSnap.auto).y|
          ≤ |q.y - (translateRequested
            ⟨false, false, true, false, false, false, Option.some 1, Option.some ⟨-10, -10, 10, 10⟩⟩
            ⟨⟨0, 0⟩, ⟨1, 1⟩, 0⟩ ⟨100, 0⟩ TranslateSnap.auto).y| :=
  translate_bounds_clamp (fun _ => idMat)
    ⟨false, false, true, false, false, false, Option.some 1, Option.some ⟨-10, -10, 10, 10⟩⟩
    ⟨⟨0, 0⟩, ⟨1, 1⟩, 0⟩ ⟨100, 0⟩ TranslateSnap.auto ⟨-10, -10, 10, 10⟩ rfl
    (by norm_num [rectContains, stateRect, mapRectPts, Rect.translate, Mat2.app, idMat,
      min_def, max_def])

/-- Witness for C3: a rotate handle moved with rotateSnap enabled. -/
theorem movePoint_rotate_snap_multiple_witness :
    movePoint (fun _ => idMat) (fun v => v.x) (fun _ _ => 7)
        ⟨false, false, true, false, false, true, Option.some 1, Option.none⟩
        ⟨⟨0, 0⟩, ⟨1, 1⟩, 0⟩ ⟨HType.r, ⟨1, 0⟩, ⟨0, 0⟩, false⟩ ⟨2, 2⟩ ⟨false, false⟩ =
      ⟨⟨0, 0⟩, ⟨1, 1⟩, 0⟩
    ∨ ∃ k : ℤ,
        (movePoint (fun _ => idMat) (fun v => v.x) (fun _ _ => 7)
          ⟨false, false, true, false, false, true, Option.some 1, Option.none⟩
          ⟨⟨0, 0⟩, ⟨1, 1⟩, 0⟩ ⟨HType.r, ⟨1, 0⟩, ⟨0, 0⟩, false⟩ ⟨2, 2⟩ ⟨false, false⟩).angle =
        15 * (k : ℚ) :=
  movePoint_rotate_snap_multiple (fun _ => idMat) (fun v => v.x) (fun _ _ => 7)
    ⟨false, false, true, false, false, true, Option.some 1, Option.none⟩
    ⟨⟨0, 0⟩, ⟨1, 1⟩, 0⟩ ⟨HType.r, ⟨1, 0⟩, ⟨0, 0⟩, false⟩ ⟨2, 2⟩ ⟨false, false⟩
    (Or.inl rfl) (Or.inl rfl)

/-- Witness for C4: a translate, a scale, and a rotate handle move on a
concrete unit ROI. -/
theorem movePoint_handle_type_effects_witness :
    ((movePoint (fun _ => idMat) (fun v => v.x) (fun _ _ => 7)
        ⟨false, false, true, false, false, false, Option.some 1, Option.none⟩
        ⟨⟨0, 0⟩, ⟨1, 1⟩, 0⟩ ⟨HType.t, ⟨0, 0⟩, ⟨0, 0⟩, false⟩ ⟨3, 4⟩ ⟨false, false⟩).size =
        (⟨⟨0, 0⟩, ⟨1, 1⟩, 0⟩ : ROIState).size
      ∧ (movePoint (fun _ => idMat) (fun v => v.x) (fun _ _ => 7)
        ⟨false, false, true, false, false, false, Option.some 1, Option.none⟩
        ⟨⟨0, 0⟩, ⟨1, 1⟩, 0⟩ ⟨HType.t, ⟨0, 0⟩, ⟨0, 0⟩, false⟩ ⟨3, 4⟩ ⟨false, false⟩).angle =
        (⟨⟨0, 0⟩, ⟨1, 1⟩, 0⟩ : ROIState).angle)
    ∧ ((movePoint (fun _ => idMat) (fun v => v.x) (fun _ _ => 7)
        ⟨false, false, true, false, false, false, Option.some 1, Option.none⟩
        ⟨⟨0, 0⟩, ⟨1, 1⟩, 0⟩ ⟨HType.s, ⟨1, 1⟩, ⟨0, 0⟩, false⟩ ⟨3, 4⟩ ⟨false, false⟩).angle =
        (⟨⟨0, 0⟩, ⟨1, 1⟩, 0⟩ : ROIState).angle
      ∧ centerScene (fun _ => idMat)
          (movePoint (fun _ => idMat) (fun v => v.x) (fun _ _ => 7)
            ⟨false, false, true, false, false, false, Option.some 1, Option.none⟩
            ⟨⟨0, 0⟩, ⟨1, 1⟩, 0⟩ ⟨HType.s, ⟨1, 1⟩, ⟨0, 0⟩, false⟩ ⟨3, 4⟩ ⟨false, false⟩)
          ⟨HType.s, ⟨1, 1⟩, ⟨0, 0⟩, false⟩ =
        centerScene (fun _ => idMat) ⟨⟨0, 0⟩, ⟨1, 1⟩, 0⟩ ⟨HType.s, ⟨1, 1⟩, ⟨0, 0⟩, false⟩)
    ∧ ((movePoint (fun _ => idMat) (fun v => v.x) (fun _ _ => 7)
        ⟨false, false, true, false, false, false, Option.some 1, Option.none⟩
        ⟨⟨0, 0⟩, ⟨1, 1⟩, 0⟩ ⟨HType.r, ⟨1, 0⟩, ⟨0, 0⟩, false⟩ ⟨3, 4⟩ ⟨false, false⟩).size =
        (⟨⟨0, 0⟩, ⟨1, 1⟩, 0⟩ : ROIState).size
      ∧ centerScene (fun _ => idMat)
          (movePoint (fun _ => idMat) (fun v => v.x) (fun _ _ => 7)
            ⟨false, false, true, false, false, false, Option.some 1, Option.none⟩
            ⟨⟨0, 0⟩, ⟨1, 1⟩, 0⟩ ⟨HType.r, ⟨1, 0⟩, ⟨0, 0⟩, false⟩ ⟨3, 4⟩ ⟨false, false⟩)
          ⟨HType.r, ⟨1, 0⟩, ⟨0, 0⟩, false⟩ =
        centerScene (fun _ => idMat) ⟨⟨0, 0⟩, ⟨1, 1⟩, 0⟩ ⟨HType.r, ⟨1, 0⟩, ⟨0, 0⟩, false⟩) :=
  ⟨(movePoint_handle_type_effects (fun _ => idMat) (fun v => v.x) (fun _ _ => 7)
      ⟨false, false, true, false, false, false, Option.some 1, Option.none⟩
      ⟨⟨0, 0⟩, ⟨1, 1⟩, 0⟩ ⟨HType.t, ⟨0, 0⟩, ⟨0, 0⟩, false⟩ ⟨3, 4⟩ ⟨false, false⟩).1 rfl,
   (movePoint_handle_type_effects (fun _ => idMat) (fun v => v.x) (fun _ _ => 7)
      ⟨false, false, true, false, false, false, Option.some 1, Option.none⟩
      ⟨⟨0, 0⟩, ⟨1, 1⟩, 0⟩ ⟨HType.s, ⟨1, 1⟩, ⟨0, 0⟩, false⟩ ⟨3, 4⟩ ⟨false, false⟩).2.1 rfl,
   (movePoint_handle_type_effects (fun _ => idMat) (fun v => v.x) (fun _ _ => 7)
      ⟨false, false, true, false, false, false, Option.some 1, Option.none⟩
      ⟨⟨0, 0⟩, ⟨1, 1⟩, 0⟩ ⟨HType.r, ⟨1, 0⟩, ⟨0, 0⟩, false⟩ ⟨3, 4⟩ ⟨false, false⟩).2.2 rfl⟩

/-- Witness for C7: a scale handle move against a null maxBounds, which
contains no rectangle, so the move is rejected and the state kept. -/
theorem movePoint_bounds_atomic_witness :
    movePoint (fun _ => idMat) (fun v => v.x) (fun _ _ => 7)
      ⟨false, false, true, false, false, false, Option.some 1, Option.some ⟨0, 0, 0, 0⟩⟩
      ⟨⟨0, 0⟩, ⟨1, 1⟩, 0⟩ ⟨HType.s, ⟨1, 1⟩, ⟨0, 0⟩, false⟩ ⟨3, 4⟩ ⟨false, false⟩ =
    ⟨⟨0, 0⟩, ⟨1, 1⟩, 0⟩ :=
  movePoint_bounds_atomic (fun _ => idMat) (fun v => v.x) (fun _ _ => 7)
    ⟨false, false, true, false, false, false, Option.some 1, Option.some ⟨0, 0, 0, 0⟩⟩
    ⟨⟨0, 0⟩, ⟨1, 1⟩, 0⟩ ⟨HType.s, ⟨1, 1⟩, ⟨0, 0⟩, false⟩ ⟨3, 4⟩ ⟨false, false⟩ ⟨0, 0, 0, 0⟩
    rfl (Or.inl rfl) (by simp [rectContains])

/-- Witness for C9: a scale handle move on a non-invertible unit ROI. -/
theorem movePoint_scale_nonneg_witness :
    0 ≤ (movePoint (fun _ => idMat) (fun v => v.x) (fun _ _ => 7)
        ⟨false, false, true, false, false, false, Option.some 1, Option.none⟩
        ⟨⟨0, 0⟩, ⟨1, 1⟩, 0⟩ ⟨HType.s, ⟨1, 1⟩, ⟨0, 0⟩, false⟩ ⟨3, 4⟩ ⟨false, false⟩).size.x
    ∧ 0 ≤ (movePoint (fun _ => idMat) (fun v => v.x) (fun _ _ => 7)
        ⟨false, false, true, false, false, false, Option.some 1, Option.none⟩
        ⟨⟨0, 0⟩, ⟨1, 1⟩, 0⟩ ⟨HType.s, ⟨1, 1⟩, ⟨0, 0⟩, false⟩ ⟨3, 4⟩ ⟨false, false⟩).size.y :=
  movePoint_scale_nonneg (fun _ => idMat) (fun v => v.x) (fun _ _ => 7)
    ⟨false, false, true, false, false, false, Option.some 1, Option.none⟩
    ⟨⟨0, 0⟩, ⟨1, 1⟩, 0⟩ ⟨HType.s, ⟨1, 1⟩, ⟨0, 0⟩, false⟩ ⟨3, 4⟩ ⟨false, false⟩
    rfl rfl (by norm_num) (by norm_num)

end ACQ4
